import Mathlib

/-!
Shallow embedding of the Telegram mediator bot (`src/bot.py`).

The handlers' state transitions are modelled as pure functions on the
per-user / per-chat context slots they read and write; the HTTP POST to the
generation endpoint is modelled as an oracle from the built request to an
`HttpOutcome`.  Definitions follow the source line by line; theorems at the
end settle the specification claims.
-/

namespace Bot

/-- Role tag of one conversation turn, the `"role"` field of the history
dictionaries built in `handle_ai_response` (`"user"` or `"model"`). -/
inductive Role where
  | user
  | model
deriving DecidableEq

/-- One entry of the private-chat history list:
`{"role": ..., "content": ...}` (bot.py lines 167-168). -/
structure Turn where
  role : Role
  content : String
deriving DecidableEq

/-- Python list slice `l[-n:]`: the last `n` elements of `l`, or all of `l`
when it is shorter than `n`. -/
def takeLast (n : Nat) (l : List α) : List α := l.drop (l.length - n)

/-- JSON object `{"text": ...}`, the shape used both in request `parts` and
in response candidate `parts`. -/
structure TextPart where
  text : String
deriving DecidableEq

/-- One element of the request `contents` array:
`{"role": ..., "parts": [{"text": ...}]}` (bot.py lines 49-54). -/
structure ContentMsg where
  role : String
  parts : List TextPart
deriving DecidableEq

/-- The `generationConfig` object of the request (bot.py lines 58-61). -/
structure GenerationConfig where
  temperature : ℚ
  maxOutputTokens : Nat
deriving DecidableEq

/-- The JSON body POSTed to the generation endpoint (bot.py lines 56-62). -/
structure GeminiRequest where
  contents : List ContentMsg
  generationConfig : GenerationConfig
deriving DecidableEq

/-- Response candidate `content` object: `{"parts": [...]}`. -/
structure CandidateContent where
  parts : List TextPart
deriving DecidableEq

/-- One element of the response `candidates` array. -/
structure Candidate where
  content : CandidateContent
deriving DecidableEq

/-- Parsed JSON body of a generation response; `candidates = none` models a
body without a `candidates` field. -/
structure GeminiResult where
  candidates : Option (List Candidate)
deriving DecidableEq

/-- Outcome of the HTTP POST: either a response carrying its status code, its
raw body text and the body's JSON parse (`json = none` when `response.json()`
would raise), or an exception raised during the call (network failure,
timeout, ...). -/
inductive HttpOutcome where
  | response (status_code : Nat) (text : String) (json : Option GeminiResult)
  | exn (message : String)

/-- Role string placed in the request for a history turn, the branch on
`msg['role'] == 'user'` in `generate_gemini_response` (bot.py lines 47-51). -/
def provider_role : Role → String
  | Role.user => "user"
  | Role.model => "model"

/-- Request body built by `generate_gemini_response` (bot.py lines 44-62):
each history turn translated in order with its role preserved, then the new
prompt as a final user message, with the fixed generation configuration. -/
def gemini_request_data (prompt : String) (chat_history : List Turn) : GeminiRequest :=
  { contents :=
      chat_history.map (fun msg =>
        if msg.role = Role.user then
          { role := "user", parts := [{ text := msg.content }] }
        else
          { role := "model", parts := [{ text := msg.content }] })
      ++ [{ role := "user", parts := [{ text := prompt }] }]
    generationConfig := { temperature := 7/10, maxOutputTokens := 500 } }

/-- Fixed placeholder returned on a success response with no usable
candidates (bot.py line 77). -/
def no_response_message : String := "Sorry, I couldn\x27t generate a response."

/-- Fixed generic apology returned when an exception occurs during the call
(bot.py line 84). -/
def request_error_message : String :=
  "⚠️ Sorry, I encountered an error. Please try again later."

/-- Formatted upstream-error string for a non-success status (bot.py
line 80). -/
def api_error_message (status_code : Nat) (body : String) : String :=
  "⚠️ API Error (Status: " ++ toString status_code ++ "): " ++ body

/-- Extraction `result['candidates'][0]['content']['parts'][0]['text']`
(bot.py line 76); an empty `parts` array raises an IndexError in the source,
caught by the surrounding `except`, hence the apology string. -/
def extract_first_text (c : Candidate) : String :=
  match c.content.parts with
  | p :: _ => p.text
  | [] => request_error_message

/-- Classification of a received response (bot.py lines 73-80); a body whose
JSON parse fails raises in the source, caught by the surrounding `except`,
hence the apology string. -/
def classify_response (status_code : Nat) (text : String)
    (json : Option GeminiResult) : String :=
  if status_code = 200 then
    match json with
    | none => request_error_message
    | some result =>
      match result.candidates with
      | some (c :: _) => extract_first_text c
      | _ => no_response_message
  else
    api_error_message status_code text

/-- The whole of `generate_gemini_response` (bot.py lines 39-84): build the
request, consult the network oracle, classify the outcome.  Every path
returns a string; no exception escapes. -/
def generate_gemini_response (prompt : String) (chat_history : List Turn)
    (net : GeminiRequest → HttpOutcome) : String :=
  match net (gemini_request_data prompt chat_history) with
  | HttpOutcome.response status_code text json => classify_response status_code text json
  | HttpOutcome.exn _ => request_error_message

/-- Fixed instruction template of `analyze_conversation` (bot.py lines
117-125), up to and including `"Messages:\n"`. -/
def analysis_preamble : String :=
  "You are an unbiased, emotionally intelligent AI mediator. Given these group messages, provide:\n1. A short, neutral summary\n2. An unbiased suggestion\nFormat strictly as:\nSummary: <summary>\nSuggestion: <suggestion>\nMessages:\n"

/-- Prompt string built by `analyze_conversation`: the template followed by
the last 10 buffered lines joined by newlines (bot.py line 125). -/
def analysis_prompt (messages : List String) : String :=
  analysis_preamble ++ String.intercalate "\n" (takeLast 10 messages)

/-- The whole of `analyze_conversation` (bot.py lines 115-128): a single-shot
generation call with the analysis prompt and no chat history (the source
passes no second argument, so the history defaults to empty). -/
def analyze_conversation (messages : List String)
    (net : GeminiRequest → HttpOutcome) : String :=
  generate_gemini_response (analysis_prompt messages) [] net

/-- History update performed by `handle_ai_response` (bot.py lines 160-169):
append the user turn then the model turn, keep the last 6 entries. -/
def handle_ai_response_update (chat_history : List Turn)
    (user_message response : String) : List Turn :=
  takeLast 6 (chat_history ++
    [{ role := Role.user, content := user_message },
     { role := Role.model, content := response }])

/-- The two turns appended by one private exchange `(user_message, response)`. -/
def exchange_turns (e : String × String) : List Turn :=
  [{ role := Role.user, content := e.1 }, { role := Role.model, content := e.2 }]

/-- History after a sequence of private exchanges `(user_message, response)`,
starting from the empty history created by `/chat`. -/
def run_exchanges (exchanges : List (String × String)) : List Turn :=
  exchanges.foldl (fun h e => handle_ai_response_update h e.1 e.2) []

/-- Whether a history is a concatenation of (user, model) pairs in that
order. -/
def well_paired : List Turn → Bool
  | [] => true
  | [_] => false
  | t :: u :: rest =>
    decide (t.role = Role.user) && decide (u.role = Role.model) && well_paired rest

/-- One inbound group message: sender first name and text.  The empty string
models a falsy or absent text, which the walrus guard in `cache_messages`
skips. -/
structure GroupMsg where
  from_user_first_name : String
  text : String
deriving DecidableEq

/-- Line cached for a group message: `"<sender>: <text>"` (bot.py line 185). -/
def group_line (m : GroupMsg) : String :=
  m.from_user_first_name ++ ": " ++ m.text

/-- State update of `cache_messages` (bot.py lines 180-186): append the line
and keep the last 10; a missing message or falsy text leaves the log
unchanged. -/
def cache_messages_update (chat_data : List String) (msg : Option GroupMsg) :
    List String :=
  match msg with
  | none => chat_data
  | some m =>
    if m.text = "" then chat_data
    else takeLast 10 (chat_data ++ [group_line m])

/-- Log after a sequence of group messages handled by `cache_messages`,
starting from the empty log created lazily by `setdefault`. -/
def run_cache_messages (msgs : List GroupMsg) : List String :=
  msgs.foldl (fun log m => cache_messages_update log (some m)) []

/-- The `chat_history` slot of `context.user_data`; `none` models an absent
key. -/
abbrev UserDataHistory := Option (List Turn)

/-- State effect of `chat_with_ai` (bot.py line 132): set the history slot to
the empty list. -/
def chat_with_ai_update (_ : UserDataHistory) : UserDataHistory := some []

/-- State effect of `stop_chat` (bot.py lines 142-143): delete the key when
present; an absent key stays absent. -/
def stop_chat_update (user_data : UserDataHistory) : UserDataHistory :=
  match user_data with
  | some _ => none
  | none => none

/-- Read `context.user_data.get("chat_history", [])` (bot.py line 161). -/
def get_chat_history (user_data : UserDataHistory) : List Turn :=
  user_data.getD []

/-- Whether `needle` occurs at the front of `hay` (character lists). -/
def chars_at_front : List Char → List Char → Bool
  | [], _ => true
  | _ :: _, [] => false
  | c :: cs, d :: ds => c == d && chars_at_front cs ds

/-- Python `needle in hay` on character lists: contiguous containment. -/
def substr_in_chars (needle : List Char) : List Char → Bool
  | [] => needle.isEmpty
  | d :: ds => chars_at_front needle (d :: ds) || substr_in_chars needle ds

/-- Python `needle in hay` on strings. -/
def substr_in (needle hay : String) : Bool :=
  substr_in_chars needle.data hay.data

/-- Python `str.lower()`, character-wise. -/
def str_lower (s : String) : String := ⟨s.data.map Char.toLower⟩

/-- State-and-reply effect of `handle_group_mention` (bot.py lines 188-208):
the updated `recent_msgs` log paired with the analysis reply (`none` on the
early returns).  The source appends the mention line to the local list,
stores that list's last 10 entries, and passes the local list to
`analyze_conversation`. -/
def handle_group_mention (bot_username : String) (m : GroupMsg)
    (chat_data : List String) (net : GeminiRequest → HttpOutcome) :
    List String × Option String :=
  if m.text = "" then (chat_data, none)
  else if substr_in ("@" ++ bot_username) (str_lower m.text) = true then
    (takeLast 10 (chat_data ++ [group_line m]),
     some (analyze_conversation (chat_data ++ [group_line m]) net))
  else (chat_data, none)

/-! Basic facts about the `l[-n:]` slice. -/

lemma takeLast_length (n : Nat) (l : List α) :
    (takeLast n l).length = min n l.length := by
  simp only [takeLast, List.length_drop]
  omega

lemma takeLast_of_length_le (n : Nat) (l : List α) (h : l.length ≤ n) :
    takeLast n l = l := by
  have h0 : l.length - n = 0 := by omega
  simp [takeLast, h0]

lemma takeLast_append_of_le (n : Nat) (l₁ l₂ : List α) (h : l₂.length ≤ n) :
    takeLast n (l₁ ++ l₂) = takeLast (n - l₂.length) l₁ ++ l₂ := by
  have hle : (l₁ ++ l₂).length - n ≤ l₁.length := by
    simp only [List.length_append]
    omega
  unfold takeLast
  rw [List.drop_append_of_le_length hle]
  have he : (l₁ ++ l₂).length - n = l₁.length - (n - l₂.length) := by
    simp only [List.length_append]
    omega
  rw [he]

lemma takeLast_takeLast (m n : Nat) (l : List α) :
    takeLast m (takeLast n l) = takeLast (min m n) l := by
  unfold takeLast
  rw [List.drop_drop]
  congr 1
  rw [List.length_drop]
  omega

lemma getLast?_takeLast_append (n : Nat) (hn : 1 ≤ n) (l : List α) (x : α) :
    (takeLast n (l ++ [x])).getLast? = some x := by
  rw [takeLast_append_of_le n l [x] (by simpa using hn)]
  simp

/-! Facts about sequences of private exchanges (claim C1). -/

lemma length_flatMap_exchange_turns (l : List (String × String)) :
    (l.flatMap exchange_turns).length = 2 * l.length := by
  induction l with
  | nil => rfl
  | cons a t ih =>
    simp only [List.flatMap_cons, List.length_append, ih, exchange_turns,
      List.length_cons, List.length_nil]
    omega

lemma drop_two_mul_flatMap (k : Nat) (l : List (String × String)) :
    (l.flatMap exchange_turns).drop (2 * k) = (l.drop k).flatMap exchange_turns := by
  induction l generalizing k with
  | nil => simp
  | cons a t ih =>
    cases k with
    | zero => simp
    | succ k =>
      rw [List.flatMap_cons, show 2 * (k + 1) = 2 + 2 * k by ring,
        ← List.drop_drop]
      have h2 : (exchange_turns a ++ t.flatMap exchange_turns).drop 2 =
          t.flatMap exchange_turns := by
        rfl
      rw [h2, ih k]
      simp

lemma takeLast_six_flatMap (l : List (String × String)) :
    takeLast 6 (l.flatMap exchange_turns) = (takeLast 3 l).flatMap exchange_turns := by
  unfold takeLast
  rw [length_flatMap_exchange_turns,
    show 2 * l.length - 6 = 2 * (l.length - 3) by omega,
    drop_two_mul_flatMap]

lemma run_exchanges_eq (exs : List (String × String)) :
    run_exchanges exs = takeLast 6 (exs.flatMap exchange_turns) := by
  induction exs using List.reverseRecOn with
  | nil => rfl
  | append_singleton t e ih =>
    have step : run_exchanges (t ++ [e]) =
        handle_ai_response_update (run_exchanges t) e.1 e.2 := by
      unfold run_exchanges
      rw [List.foldl_append]
      rfl
    have hT : ([{ role := Role.user, content := e.1 },
        { role := Role.model, content := e.2 }] : List Turn) = exchange_turns e := rfl
    rw [step, ih]
    unfold handle_ai_response_update
    rw [hT, takeLast_append_of_le 6 _ _ (by simp [exchange_turns]),
      List.flatMap_append]
    have hsingle : ([e] : List (String × String)).flatMap exchange_turns =
        exchange_turns e := by simp
    rw [hsingle, takeLast_append_of_le 6 _ _ (by simp [exchange_turns]),
      takeLast_takeLast]
    simp [exchange_turns]

lemma well_paired_flatMap (l : List (String × String)) :
    well_paired (l.flatMap exchange_turns) = true := by
  induction l with
  | nil => rfl
  | cons a t ih =>
    rw [List.flatMap_cons]
    simp only [exchange_turns, List.cons_append, List.nil_append, well_paired]
    simpa using ih

/-! Facts about sequences of cached group messages (claim C2). -/

lemma run_cache_messages_eq (msgs : List GroupMsg) :
    (∀ m ∈ msgs, m.text ≠ "") →
    run_cache_messages msgs = takeLast 10 (msgs.map group_line) := by
  induction msgs using List.reverseRecOn with
  | nil => intro _; rfl
  | append_singleton t m ih =>
    intro h
    have ht : ∀ x ∈ t, x.text ≠ "" := fun x hx => h x (by simp [hx])
    have hm : m.text ≠ "" := h m (by simp)
    have step : run_cache_messages (t ++ [m]) =
        cache_messages_update (run_cache_messages t) (some m) := by
      unfold run_cache_messages
      rw [List.foldl_append]
      rfl
    rw [step, ih ht]
    simp only [cache_messages_update]
    rw [if_neg hm, List.map_append]
    have h1 : ([m].map group_line).length ≤ 10 := by simp
    rw [show ([m] : List GroupMsg).map group_line = [group_line m] from rfl]
      at h1 ⊢
    rw [takeLast_append_of_le 10 _ _ (by simp),
      takeLast_append_of_le 10 _ _ (by simp), takeLast_takeLast]
    norm_num

/-- C1: starting from an empty history, after every sequence of private
exchanges handled by `handle_ai_response` the stored history has length
`min (2 * exchanges, 6)`, equals the last 6 of all appended turns (equally,
the turns of the last 3 exchanges, so oldest pairs are evicted first),
alternates user/model turns in pairs, and never begins with a model turn. -/
theorem conversation_history_invariant (exs : List (String × String)) :
    (run_exchanges exs).length = min (2 * exs.length) 6 ∧
    run_exchanges exs = takeLast 6 (exs.flatMap exchange_turns) ∧
    run_exchanges exs = (takeLast 3 exs).flatMap exchange_turns ∧
    well_paired (run_exchanges exs) = true ∧
    (∀ t, (run_exchanges exs).head? = some t → t.role = Role.user) := by
  have e1 := run_exchanges_eq exs
  have e2 : run_exchanges exs = (takeLast 3 exs).flatMap exchange_turns := by
    rw [e1, takeLast_six_flatMap]
  refine ⟨?_, e1, e2, ?_, ?_⟩
  · rw [e1, takeLast_length, length_flatMap_exchange_turns]
    omega
  · rw [e2]
    exact well_paired_flatMap _
  · intro t h
    rw [e2] at h
    rcases hcase : takeLast 3 exs with _ | ⟨a, l⟩
    · rw [hcase] at h
      simp at h
    · rw [hcase] at h
      simp only [List.flatMap_cons, exchange_turns, List.cons_append,
        List.head?_cons] at h
      cases h
      rfl

/-- C2: starting from an empty log, after every sequence of group text
messages processed by `cache_messages` the stored log equals the last
`min (N, 10)` appended lines in original order, so its length is
`min (N, 10)`. -/
theorem group_message_log_spec (msgs : List GroupMsg)
    (h : ∀ m ∈ msgs, m.text ≠ "") :
    run_cache_messages msgs = takeLast 10 (msgs.map group_line) ∧
    (run_cache_messages msgs).length = min msgs.length 10 := by
  have e := run_cache_messages_eq msgs h
  refine ⟨e, ?_⟩
  rw [e, takeLast_length, List.length_map]
  omega

/-- Witness for C2 at two concrete group messages. -/
theorem group_message_log_spec_witness :
    run_cache_messages [⟨"Alice", "hi"⟩, ⟨"Bob", "yo"⟩] =
      takeLast 10 (([⟨"Alice", "hi"⟩, ⟨"Bob", "yo"⟩] : List GroupMsg).map group_line) ∧
    (run_cache_messages [⟨"Alice", "hi"⟩, ⟨"Bob", "yo"⟩]).length =
      min ([⟨"Alice", "hi"⟩, ⟨"Bob", "yo"⟩] : List GroupMsg).length 10 :=
  group_message_log_spec [⟨"Alice", "hi"⟩, ⟨"Bob", "yo"⟩] (by decide)

/-- C3: on a non-success status `S` with raw body `B`, the generation call
returns the formatted error string, which contains the exact status code and
the exact raw body. -/
theorem api_error_spec (prompt : String) (hist : List Turn)
    (net : GeminiRequest → HttpOutcome) (S : Nat) (B : String)
    (j : Option GeminiResult) (hS : S ≠ 200)
    (hnet : net (gemini_request_data prompt hist) = HttpOutcome.response S B j) :
    generate_gemini_response prompt hist net = api_error_message S B ∧
    (∃ a b, generate_gemini_response prompt hist net =
      a ++ toString S ++ b ++ B) := by
  have e : generate_gemini_response prompt hist net = api_error_message S B := by
    unfold generate_gemini_response
    rw [hnet]
    show classify_response S B j = api_error_message S B
    unfold classify_response
    rw [if_neg hS]
  refine ⟨e, ⟨"⚠️ API Error (Status: ", "): ", ?_⟩⟩
  rw [e]
  rfl

/-- Witness for C3 at a concrete 503 outcome. -/
theorem api_error_spec_witness :
    generate_gemini_response "hi" []
        (fun _ => HttpOutcome.response 503 "overloaded" none) =
      api_error_message 503 "overloaded" ∧
    (∃ a b, generate_gemini_response "hi" []
        (fun _ => HttpOutcome.response 503 "overloaded" none) =
      a ++ toString 503 ++ b ++ "overloaded") :=
  api_error_spec "hi" [] _ 503 "overloaded" none (by decide) rfl

/-- C4: on a success status whose parsed body has no `candidates` field or an
empty `candidates` array, the generation call returns the fixed placeholder
string, which is not empty. -/
theorem empty_candidates_spec (prompt : String) (hist : List Turn)
    (net : GeminiRequest → HttpOutcome) (B : String)
    (cands : Option (List Candidate))
    (hc : cands = none ∨ cands = some [])
    (hnet : net (gemini_request_data prompt hist) =
      HttpOutcome.response 200 B (some { candidates := cands })) :
    generate_gemini_response prompt hist net = no_response_message ∧
    generate_gemini_response prompt hist net ≠ "" := by
  have e : generate_gemini_response prompt hist net = no_response_message := by
    unfold generate_gemini_response
    rw [hnet]
    show classify_response 200 B (some { candidates := cands }) = no_response_message
    rcases hc with h | h <;> subst h <;> rfl
  refine ⟨e, ?_⟩
  rw [e]
  decide

/-- Witness for C4 at a concrete empty-candidates outcome. -/
theorem empty_candidates_spec_witness :
    generate_gemini_response "hello" []
        (fun _ => HttpOutcome.response 200 "\x7b\x7d" (some { candidates := none })) =
      no_response_message ∧
    generate_gemini_response "hello" []
        (fun _ => HttpOutcome.response 200 "\x7b\x7d" (some { candidates := none })) ≠ "" :=
  empty_candidates_spec "hello" [] _ "\x7b\x7d" none (Or.inl rfl) rfl

/-- C5: on a success status with at least one candidate, the generation call
returns exactly the text of the first part of the first candidate,
unmodified. -/
theorem first_candidate_spec (prompt : String) (hist : List Turn)
    (net : GeminiRequest → HttpOutcome) (B : String)
    (c : Candidate) (rest : List Candidate) (p : TextPart) (ps : List TextPart)
    (hparts : c.content.parts = p :: ps)
    (hnet : net (gemini_request_data prompt hist) =
      HttpOutcome.response 200 B (some { candidates := some (c :: rest) })) :
    generate_gemini_response prompt hist net = p.text := by
  unfold generate_gemini_response
  rw [hnet]
  show classify_response 200 B (some { candidates := some (c :: rest) }) = p.text
  unfold classify_response
  rw [if_pos rfl]
  show extract_first_text c = p.text
  unfold extract_first_text
  rw [hparts]

/-- Witness for C5 at a concrete one-candidate outcome. -/
theorem first_candidate_spec_witness :
    generate_gemini_response "hello" []
        (fun _ => HttpOutcome.response 200 "body" (some { candidates := some [{ content := { parts := [{ text := "Hi there!" }] } }] })) =
      ({ text := "Hi there!" } : TextPart).text :=
  first_candidate_spec "hello" [] _ "body"
    { content := { parts := [{ text := "Hi there!" }] } } []
    { text := "Hi there!" } [] rfl rfl

/-- C6: when an exception occurs during the call (transport failure, body
parse failure, or the missing-parts index error), the generation call
returns the fixed generic apology string; being a total function, it never
raises. -/
theorem exception_apology_spec (prompt : String) (hist : List Turn)
    (net : GeminiRequest → HttpOutcome)
    (h : (∃ e, net (gemini_request_data prompt hist) = HttpOutcome.exn e) ∨
      (∃ B, net (gemini_request_data prompt hist) =
        HttpOutcome.response 200 B none) ∨
      (∃ B c rest, net (gemini_request_data prompt hist) =
        HttpOutcome.response 200 B (some { candidates := some (c :: rest) }) ∧
        c.content.parts = [])) :
    generate_gemini_response prompt hist net = request_error_message := by
  unfold generate_gemini_response
  rcases h with ⟨e, he⟩ | ⟨B, hB⟩ | ⟨B, c, rest, hB, hc⟩
  · rw [he]
  · rw [hB]
    rfl
  · rw [hB]
    show classify_response 200 B (some { candidates := some (c :: rest) }) =
      request_error_message
    unfold classify_response
    rw [if_pos rfl]
    show extract_first_text c = request_error_message
    unfold extract_first_text
    rw [hc]

/-- Witness for C6 at a concrete transport failure. -/
theorem exception_apology_spec_witness :
    generate_gemini_response "hello" [] (fun _ => HttpOutcome.exn "timeout") =
      request_error_message :=
  exception_apology_spec "hello" [] _ (Or.inl ⟨"timeout", rfl⟩)

/-- C7: the request body holds each history turn translated in order with
its role preserved, then the new prompt as a final user message, and the
fixed generation configuration (temperature 7/10, 500 max output tokens). -/
theorem request_shaping_spec (prompt : String) (hist : List Turn) :
    (gemini_request_data prompt hist).contents =
      hist.map (fun t =>
        { role := provider_role t.role, parts := [{ text := t.content }] }) ++
      [{ role := "user", parts := [{ text := prompt }] }] ∧
    (gemini_request_data prompt hist).generationConfig =
      { temperature := 7/10, maxOutputTokens := 500 } := by
  refine ⟨?_, rfl⟩
  have hmap : ∀ l : List Turn,
      l.map (fun msg =>
        if msg.role = Role.user then
          ({ role := "user", parts := [{ text := msg.content }] } : ContentMsg)
        else
          { role := "model", parts := [{ text := msg.content }] }) =
      l.map (fun t =>
        { role := provider_role t.role, parts := [{ text := t.content }] }) := by
    intro l
    induction l with
    | nil => rfl
    | cons a t ih =>
      simp only [List.map_cons]
      rw [ih]
      congr 1
      cases ha : a.role <;> simp [provider_role, ha]
  have e : (gemini_request_data prompt hist).contents =
      hist.map (fun msg =>
        if msg.role = Role.user then
          ({ role := "user", parts := [{ text := msg.content }] } : ContentMsg)
        else
          { role := "model", parts := [{ text := msg.content }] })
      ++ [{ role := "user", parts := [{ text := prompt }] }] := rfl
  rw [e, hmap hist]

set_option maxRecDepth 8192 in
/-- C8: the analysis prompt contains the literal substrings `Summary:` and
`Suggestion:` of the fixed template and ends with the last (at most) 10
buffered lines joined by newlines; `analyze_conversation` is exactly a
generation call on that prompt with an empty history, so the request built
for it holds no history turn. -/
theorem analysis_prompt_spec (messages : List String)
    (net : GeminiRequest → HttpOutcome) :
    (∃ a b, analysis_prompt messages = a ++ "Summary:" ++ b) ∧
    (∃ a b, analysis_prompt messages = a ++ "Suggestion:" ++ b) ∧
    (∃ a, analysis_prompt messages =
      a ++ String.intercalate "\n" (takeLast 10 messages)) ∧
    analyze_conversation messages net =
      generate_gemini_response (analysis_prompt messages) [] net ∧
    (gemini_request_data (analysis_prompt messages) []).contents =
      [{ role := "user", parts := [{ text := analysis_prompt messages }] }] := by
  refine ⟨?_, ?_, ⟨analysis_preamble, rfl⟩, rfl, rfl⟩
  · refine ⟨"You are an unbiased, emotionally intelligent AI mediator. Given these group messages, provide:\n1. A short, neutral summary\n2. An unbiased suggestion\nFormat strictly as:\n",
      " <summary>\nSuggestion: <suggestion>\nMessages:\n" ++
        String.intercalate "\n" (takeLast 10 messages), ?_⟩
    unfold analysis_prompt
    rw [show analysis_preamble =
      "You are an unbiased, emotionally intelligent AI mediator. Given these group messages, provide:\n1. A short, neutral summary\n2. An unbiased suggestion\nFormat strictly as:\n" ++
      "Summary:" ++ " <summary>\nSuggestion: <suggestion>\nMessages:\n" from by decide]
    rw [String.append_assoc]
  · refine ⟨"You are an unbiased, emotionally intelligent AI mediator. Given these group messages, provide:\n1. A short, neutral summary\n2. An unbiased suggestion\nFormat strictly as:\nSummary: <summary>\n",
      " <suggestion>\nMessages:\n" ++
        String.intercalate "\n" (takeLast 10 messages), ?_⟩
    unfold analysis_prompt
    rw [show analysis_preamble =
      "You are an unbiased, emotionally intelligent AI mediator. Given these group messages, provide:\n1. A short, neutral summary\n2. An unbiased suggestion\nFormat strictly as:\nSummary: <summary>\n" ++
      "Suggestion:" ++ " <suggestion>\nMessages:\n" from by decide]
    rw [String.append_assoc]

/-- C9: `/chat` sets the history slot to the empty list and `/stop` removes
the key (also when it is already absent); after either operation the next
read of the history yields the empty list. -/
theorem reset_spec (user_data : UserDataHistory) :
    chat_with_ai_update user_data = some [] ∧
    stop_chat_update user_data = none ∧
    get_chat_history (chat_with_ai_update user_data) = [] ∧
    get_chat_history (stop_chat_update user_data) = [] := by
  refine ⟨rfl, ?_, rfl, ?_⟩ <;> cases user_data <;> rfl

/-- C10: when the message text contains the bot handle, the stored group log
becomes the last 10 entries of the old log with the mention line appended;
the analysis is taken of that appended list, whose prompt coincides with the
prompt of the stored updated log, and the stored log ends with the mention
line itself. -/
theorem group_mention_spec (u : String) (m : GroupMsg) (log : List String)
    (net : GeminiRequest → HttpOutcome)
    (h : substr_in ("@" ++ u) (str_lower m.text) = true) :
    (handle_group_mention u m log net).1 = takeLast 10 (log ++ [group_line m]) ∧
    (handle_group_mention u m log net).2 =
      some (analyze_conversation (log ++ [group_line m]) net) ∧
    analyze_conversation (log ++ [group_line m]) net =
      analyze_conversation (takeLast 10 (log ++ [group_line m])) net ∧
    ((handle_group_mention u m log net).1).getLast? = some (group_line m) := by
  have hdata : ("@" ++ u).data = '@' :: u.data := by
    rw [String.data_append]
    rfl
  have htext : ¬ m.text = "" := by
    intro he
    rw [he] at h
    have h0 : str_lower "" = "" := rfl
    rw [h0] at h
    have hfalse : substr_in ("@" ++ u) "" = false := by
      unfold substr_in
      rw [hdata]
      rfl
    rw [hfalse] at h
    simp at h
  have e : handle_group_mention u m log net =
      (takeLast 10 (log ++ [group_line m]),
       some (analyze_conversation (log ++ [group_line m]) net)) := by
    unfold handle_group_mention
    rw [if_neg htext, if_pos h]
  have hp : analysis_prompt (log ++ [group_line m]) =
      analysis_prompt (takeLast 10 (log ++ [group_line m])) := by
    unfold analysis_prompt
    rw [takeLast_takeLast]
    norm_num
  refine ⟨by rw [e], by rw [e], ?_, ?_⟩
  · unfold analyze_conversation
    rw [hp]
  · rw [e]
    exact getLast?_takeLast_append 10 (by norm_num) log (group_line m)

/-- Witness for C10 at a concrete mention message. -/
theorem group_mention_spec_witness :
    (handle_group_mention "genz_mediator_bot"
        ⟨"Alice", "Hey @genz_mediator_bot"⟩ ["Bob: hi"]
        (fun _ => HttpOutcome.exn "down")).1 =
      takeLast 10 (["Bob: hi"] ++
        [group_line ⟨"Alice", "Hey @genz_mediator_bot"⟩]) ∧
    (handle_group_mention "genz_mediator_bot"
        ⟨"Alice", "Hey @genz_mediator_bot"⟩ ["Bob: hi"]
        (fun _ => HttpOutcome.exn "down")).2 =
      some (analyze_conversation (["Bob: hi"] ++
        [group_line ⟨"Alice", "Hey @genz_mediator_bot"⟩])
        (fun _ => HttpOutcome.exn "down")) ∧
    analyze_conversation (["Bob: hi"] ++
        [group_line ⟨"Alice", "Hey @genz_mediator_bot"⟩])
        (fun _ => HttpOutcome.exn "down") =
      analyze_conversation (takeLast 10 (["Bob: hi"] ++
        [group_line ⟨"Alice", "Hey @genz_mediator_bot"⟩]))
        (fun _ => HttpOutcome.exn "down") ∧
    ((handle_group_mention "genz_mediator_bot"
        ⟨"Alice", "Hey @genz_mediator_bot"⟩ ["Bob: hi"]
        (fun _ => HttpOutcome.exn "down")).1).getLast? =
      some (group_line ⟨"Alice", "Hey @genz_mediator_bot"⟩) :=
  group_mention_spec "genz_mediator_bot" ⟨"Alice", "Hey @genz_mediator_bot"⟩
    ["Bob: hi"] (fun _ => HttpOutcome.exn "down") (by decide)

end Bot
